import Mathlib

/- Shallow embedding of the twitch-client scripts: the OAuth callback server
   (auth-server.js), the auth helpers of auth.js, and the Helix probe client
   of test-api.js.  Network traffic is modelled by passing in the parsed
   response a fetch would yield and recording the requests the code issues;
   console output is recorded as a list of printed lines; process exit is
   recorded as the scheduled delay in milliseconds. -/

namespace TwitchClient

/-- JavaScript truthiness of an optional string value: an absent value
(undefined / null) and the empty string are falsy, every other string is
truthy.  This is the test the scripts apply with if (error), if (code),
if (data.access_token), if (!token). -/
def jsTruthy : Option String → Bool
  | none => false
  | some s => s != ""

/-- Rendering of an optional string inside a template literal: an undefined
value prints as the text "undefined". -/
def jsStr : Option String → String
  | none => "undefined"
  | some s => s

/-- Rendering of an optional number inside a template literal. -/
def jsNat : Option Nat → String
  | none => "undefined"
  | some n => toString n

/-- Rendering of a response header value that may be absent: headers.get
returns null, which prints as the text "null". -/
def hdrShow : Option String → String
  | none => "null"
  | some s => s

/-- An outgoing HTTP request: method, absolute URL, headers, and the
form-encoded body fields (empty for GET requests). -/
structure HttpRequest where
  method : String
  url : String
  headers : List (String × String)
  formBody : List (String × String)
deriving DecidableEq, Repr

/-- The parsed JSON body returned by the identity token endpoint.  The
fields the scripts inspect live in their own slots; any other field of the
payload (for example status and message of an error payload) is kept in
rest as a pair of key and already-rendered JSON value text. -/
structure TokenResponse where
  access_token : Option String
  refresh_token : Option String
  expires_in : Option Nat
  scope : Option (List String)
  rest : List (String × String)
deriving DecidableEq, Repr

/-- Quotation of a string as a JSON string literal (character escaping is
abstracted away). -/
def jsonQuote (s : String) : String := "\"" ++ s ++ "\""

/-- Fields of a token response in rendering order, each with its rendered
JSON value; absent fields are omitted, as JSON.stringify omits undefined. -/
def tokenFields (t : TokenResponse) : List (String × String) :=
  (match t.access_token with
    | some s => [("access_token", jsonQuote s)]
    | none => []) ++
  (match t.refresh_token with
    | some s => [("refresh_token", jsonQuote s)]
    | none => []) ++
  (match t.expires_in with
    | some n => [("expires_in", toString n)]
    | none => []) ++
  (match t.scope with
    | some l => [("scope", "[" ++ String.intercalate ", " (l.map jsonQuote) ++ "]")]
    | none => []) ++
  t.rest.map (fun p => (p.1, jsonQuote p.2))

/-- Model of JSON.stringify(tokens, null, 2): every present field on its own
indented line.  The same rendering stands in for an object argument printed
by the console. -/
def serializeTokens (t : TokenResponse) : String :=
  "\x7b\n" ++
    String.intercalate ",\n"
      ((tokenFields t).map (fun p => "  " ++ jsonQuote p.1 ++ ": " ++ p.2)) ++
  "\n\x7d"

/-- Credentials the callback server reads from the environment
(TWITCH_CLIENT_ID and TWITCH_CLIENT_SECRET may be absent). -/
structure ServerEnv where
  clientId : Option String
  clientSecret : Option String
deriving DecidableEq, Repr

/-- REDIRECT_URI constant shared by auth.js and the callback server. -/
def REDIRECT_URI : String := "http://localhost:3000/callback"

/-- Token-endpoint POST issued by exchangeCodeForToken: form body with
client credentials, the code, grant_type authorization_code and the
redirect URI. -/
def exchangeTokenRequest (env : ServerEnv) (code : String) : HttpRequest :=
  { method := "POST",
    url := "https://id.twitch.tv/oauth2/token",
    headers := [("Content-Type", "application/x-www-form-urlencoded")],
    formBody := [("client_id", jsStr env.clientId),
                 ("client_secret", jsStr env.clientSecret),
                 ("code", code),
                 ("grant_type", "authorization_code"),
                 ("redirect_uri", REDIRECT_URI)] }

/-- Model of exchangeCodeForToken: it issues exactly one POST to the token
endpoint and returns the parsed JSON of the network response (passed in as
resp) unconditionally, without inspecting it. -/
def exchangeCodeForToken (env : ServerEnv) (code : String) (resp : TokenResponse) :
    TokenResponse × List HttpRequest :=
  (resp, [exchangeTokenRequest env code])

/-- An incoming request to the callback server, already split into pathname
and query parameters (the parse new URL(req.url, base) performs). -/
structure Request where
  pathname : String
  query : List (String × String)
deriving DecidableEq, Repr

/-- Lookup of a query parameter, as url.searchParams.get: the first value
bound to the key when it occurs, null (none) otherwise. -/
def getParam (q : List (String × String)) (k : String) : Option String :=
  (q.find? (fun p => p.1 == k)).map (fun p => p.2)

/-- An HTTP response written by the server: status code, Content-Type and
body. -/
structure HttpResponse where
  status : Nat
  contentType : String
  respBody : String
deriving DecidableEq, Repr

/-- Everything one invocation of the request handler does: the response it
writes (none when it never calls writeHead/end on that connection), the
token-endpoint requests it issues, the console lines it prints, and the
delay in milliseconds after which it schedules process exit (none when the
process keeps running). -/
structure HandlerResult where
  response : Option HttpResponse
  tokenRequests : List HttpRequest
  consoleLines : List String
  exitAfterMs : Option Nat
deriving DecidableEq, Repr

/-- Body of the confirmation page sent on a successful exchange (the exact
template literal of the source, newlines and indentation included). -/
def successBody : String :=
  "\n          <h1>Authorization Successful!</h1>\n          <p>You can close this window.</p>\n          <p>Check your terminal for the tokens.</p>\n        "

/-- Rendering of tokens.scope?.join(', ') || 'none': an absent scope list
prints as "none", and so does an empty join result. -/
def scopeShow : Option (List String) → String
  | none => "none"
  | some l => if String.intercalate ", " l = "" then "none" else String.intercalate ", " l

/-- Console lines printed on the successful-exchange path, in order.  The
line printed by the exit timer one second later is represented by the
scheduled exit instead. -/
def successConsole (tokens : TokenResponse) : List String :=
  ["\nReceived authorization code, exchanging for token...",
   "\n========================================",
   "SUCCESS! Update ~/twitch-secrets/.env:",
   "========================================\n",
   "TWITCH_ACCESS_TOKEN=" ++ jsStr tokens.access_token,
   "TWITCH_REFRESH_TOKEN=" ++ jsStr tokens.refresh_token,
   "\n========================================",
   "Token expires in: " ++ jsNat tokens.expires_in ++ " seconds",
   "Scopes: " ++ scopeShow tokens.scope,
   "========================================\n"]

/-- The callback server's request handler.  tokenResp is the parsed body the
token endpoint would return were the exchange performed; the result records
whether that exchange request was actually issued. -/
def handleRequest (env : ServerEnv) (req : Request) (tokenResp : TokenResponse) :
    HandlerResult :=
  if req.pathname = "/callback" then
    let code := getParam req.query "code"
    let error := getParam req.query "error"
    if jsTruthy error then
      { response := some ⟨400, "text/html",
          "<h1>Authorization Failed</h1><p>Error: " ++ jsStr error ++ "</p>"⟩,
        tokenRequests := [],
        consoleLines := ["\nAuthorization denied by user"],
        exitAfterMs := none }
    else if jsTruthy code then
      let r := exchangeCodeForToken env (jsStr code) tokenResp
      if jsTruthy r.1.access_token then
        { response := some ⟨200, "text/html", successBody⟩,
          tokenRequests := r.2,
          consoleLines := successConsole r.1,
          exitAfterMs := some 1000 }
      else
        { response := some ⟨500, "text/html",
            "<h1>Token Exchange Failed</h1><pre>" ++ serializeTokens r.1 ++ "</pre>"⟩,
          tokenRequests := r.2,
          consoleLines := ["\nReceived authorization code, exchanging for token...",
                           "Token exchange failed: " ++ serializeTokens r.1],
          exitAfterMs := none }
    else
      { response := none, tokenRequests := [], consoleLines := [], exitAfterMs := none }
  else
    { response := some ⟨200, "text/plain",
        "Twitch OAuth Callback Server\nWaiting for authorization..."⟩,
      tokenRequests := [],
      consoleLines := [],
      exitAfterMs := none }

/-- Environment values auth.js reads from the secrets file. -/
structure AuthEnv where
  clientId : Option String
  clientSecret : Option String
  accessToken : Option String
  refreshToken : Option String
deriving DecidableEq, Repr

/-- Scope list requested for the authorization-code grant. -/
def SCOPES_LIST : List String :=
  ["moderator:read:followers", "channel:read:subscriptions"]

/-- SCOPES constant of auth.js: the scope list joined with single spaces. -/
def SCOPES : String := String.intercalate " " SCOPES_LIST

/-- A URL as base address plus search parameters. -/
structure UrlModel where
  base : String
  params : List (String × String)
deriving DecidableEq, Repr

/-- Model of url.searchParams.set: replace the first binding of the key and
drop any later duplicates, or append a new binding when the key is absent. -/
def setParam : List (String × String) → String → String → List (String × String)
  | [], k, v => [(k, v)]
  | p :: rest, k, v =>
    if p.1 = k then (k, v) :: rest.filter (fun q => q.1 ≠ k)
    else p :: setParam rest k v

/-- Body of startUserAuthFlow, generalised over the three values it fills in
(the source applies it to CLIENT_ID, REDIRECT_URI and SCOPES): the authorize
endpoint with client_id, redirect_uri, response_type and scope set in that
order on an initially empty parameter list. -/
def buildAuthorizeUrl (clientId redirectUri scope : String) : UrlModel :=
  { base := "https://id.twitch.tv/oauth2/authorize",
    params := setParam (setParam (setParam (setParam [] "client_id" clientId)
      "redirect_uri" redirectUri) "response_type" "code") "scope" scope }

/-- startUserAuthFlow constructs the authorization URL from the configured
client id, the fixed redirect URI and the SCOPES constant, and prints it. -/
def startUserAuthFlow (env : AuthEnv) : UrlModel :=
  buildAuthorizeUrl (jsStr env.clientId) REDIRECT_URI SCOPES

/-- The validation endpoint's reply: HTTP status, and the body fields the
script reads on success. -/
structure ValidateResponse where
  status : Nat
  login : String
  user_id : String
  scopes : List String
  expires_in : Nat
deriving DecidableEq, Repr

/-- Token metadata validateToken returns on success. -/
structure TokenMetadata where
  login : String
  user_id : String
  scopes : List String
  expires_in : Nat
deriving DecidableEq, Repr

/-- Result of one validateToken invocation: the returned value, the requests
issued, and the console lines printed. -/
structure ValidateOutcome where
  result : Option TokenMetadata
  networkCalls : List HttpRequest
  consoleLines : List String
deriving DecidableEq, Repr

/-- GET issued against the validation endpoint, with the token as an OAuth
authorization credential. -/
def validateRequest (token : String) : HttpRequest :=
  { method := "GET",
    url := "https://id.twitch.tv/oauth2/validate",
    headers := [("Authorization", "OAuth " ++ token)],
    formBody := [] }

/-- Model of validateToken: abort when no access token is configured,
otherwise one GET; response.ok (status 200 to 299) yields the metadata, any
other status yields null with fixed console lines that read nothing further
from the response. -/
def validateToken (env : AuthEnv) (resp : ValidateResponse) : ValidateOutcome :=
  if jsTruthy env.accessToken = false then
    { result := none,
      networkCalls := [],
      consoleLines := ["No TWITCH_ACCESS_TOKEN found in ~/twitch-secrets/.env"] }
  else if 200 ≤ resp.status ∧ resp.status ≤ 299 then
    { result := some ⟨resp.login, resp.user_id, resp.scopes, resp.expires_in⟩,
      networkCalls := [validateRequest (jsStr env.accessToken)],
      consoleLines := ["Validating access token...\n",
        "Token is VALID",
        "  User: " ++ resp.login,
        "  User ID: " ++ resp.user_id,
        "  Scopes: " ++ String.intercalate ", " resp.scopes,
        "  Expires in: " ++ toString resp.expires_in ++ " seconds"] }
  else
    { result := none,
      networkCalls := [validateRequest (jsStr env.accessToken)],
      consoleLines := ["Validating access token...\n",
        "Token is INVALID or EXPIRED",
        "Run: node auth.js refresh"] }

/-- Result of one refreshToken invocation: the returned value, a TypeError
the invocation threw (if any), the requests issued, and the console lines
printed before returning or throwing. -/
structure RefreshOutcome where
  result : Option TokenResponse
  threw : Option String
  networkCalls : List HttpRequest
  consoleLines : List String
deriving DecidableEq, Repr

/-- Token-endpoint POST issued by refreshToken: form body with client
credentials, grant_type refresh_token and the stored refresh token. -/
def refreshTokenRequest (env : AuthEnv) : HttpRequest :=
  { method := "POST",
    url := "https://id.twitch.tv/oauth2/token",
    headers := [("Content-Type", "application/x-www-form-urlencoded")],
    formBody := [("client_id", jsStr env.clientId),
                 ("client_secret", jsStr env.clientSecret),
                 ("grant_type", "refresh_token"),
                 ("refresh_token", jsStr env.refreshToken)] }

/-- Model of refreshToken.  resp is the parsed body the token endpoint would
return were the POST made.  With no refresh token configured the function
returns null before any request.  Otherwise one POST is issued; a truthy
access_token field means success, anything else prints the payload and
returns null.  The success path reads data.refresh_token.substring(0, 10),
which throws a TypeError when that field is absent; threw records this. -/
def refreshToken (env : AuthEnv) (resp : TokenResponse) : RefreshOutcome :=
  if jsTruthy env.refreshToken = false then
    { result := none, threw := none, networkCalls := [],
      consoleLines := ["No TWITCH_REFRESH_TOKEN found in ~/twitch-secrets/.env",
                       "Run: node auth.js user  (to get a new token)"] }
  else
    let calls := [refreshTokenRequest env]
    if jsTruthy resp.access_token then
      match resp.refresh_token with
      | some rtok =>
        { result := some resp, threw := none, networkCalls := calls,
          consoleLines := ["Refreshing access token...\n",
            "Token refreshed successfully!",
            "New access token: " ++ (jsStr resp.access_token).take 10 ++ "...",
            "New refresh token: " ++ rtok.take 10 ++ "...",
            "\nUpdate ~/twitch-secrets/.env with these values:",
            "TWITCH_ACCESS_TOKEN=" ++ jsStr resp.access_token,
            "TWITCH_REFRESH_TOKEN=" ++ rtok] }
      | none =>
        { result := none, threw := some "TypeError: data.refresh_token is undefined",
          networkCalls := calls,
          consoleLines := ["Refreshing access token...\n",
            "Token refreshed successfully!",
            "New access token: " ++ (jsStr resp.access_token).take 10 ++ "..."] }
    else
      { result := none, threw := none, networkCalls := calls,
        consoleLines := ["Refreshing access token...\n",
                         "Refresh failed: " ++ serializeTokens resp] }

/-- Environment values test-api.js reads. -/
structure ApiEnv where
  clientId : Option String
  accessToken : Option String
deriving DecidableEq, Repr

/-- API_BASE constant of test-api.js. -/
def API_BASE : String := "https://api.twitch.tv/helix"

/-- A Helix response: HTTP status, the three rate-limit headers (absent
headers read as null), and the parsed JSON body kept abstract as text. -/
structure ApiResponse where
  status : Nat
  rlLimit : Option String
  rlRemaining : Option String
  rlReset : Option String
  parsedBody : String
deriving DecidableEq, Repr

/-- Value apiCall returns: the response status and the parsed body. -/
structure ApiResult where
  status : Nat
  data : String
deriving DecidableEq, Repr

/-- Result of one apiCall invocation: the returned value, the requests
issued, and the console lines printed. -/
structure ApiOutcome where
  result : ApiResult
  networkCalls : List HttpRequest
  consoleLines : List String
deriving DecidableEq, Repr

/-- GET issued against a Helix endpoint with bearer token and client id. -/
def apiRequest (env : ApiEnv) (endpoint : String) : HttpRequest :=
  { method := "GET",
    url := API_BASE ++ endpoint,
    headers := [("Authorization", "Bearer " ++ jsStr env.accessToken),
                ("Client-Id", jsStr env.clientId)],
    formBody := [] }

/-- Model of apiCall: exactly one GET, the rate-limit headers logged to the
console, and the status with the parsed body returned unconditionally,
whatever the status is. -/
def apiCall (env : ApiEnv) (endpoint : String) (resp : ApiResponse) : ApiOutcome :=
  { result := ⟨resp.status, resp.parsedBody⟩,
    networkCalls := [apiRequest env endpoint],
    consoleLines := ["GET " ++ API_BASE ++ endpoint ++ "\n",
      "Rate Limit Info:",
      "  Limit: " ++ hdrShow resp.rlLimit,
      "  Remaining: " ++ hdrShow resp.rlRemaining,
      "  Reset: " ++ hdrShow resp.rlReset,
      ""] }

/-- Truthiness of a present string value is its non-emptiness. -/
theorem jsTruthy_some_iff (s : String) : jsTruthy (some s) = true ↔ s ≠ "" := by
  simp [jsTruthy]

/-- Claim C1, counterexample: the callback request /callback?error=&code=abc
has its query string containing an error parameter (with an empty value),
yet the handler does not respond 400: it runs the exchange, responds 200 and
schedules process exit, because if (error) tests truthiness, not presence. -/
theorem C1_counterexample :
    (getParam [("error", ""), ("code", "abc")] "error").isSome = true ∧
    ¬ ((handleRequest ⟨some "cid", some "sec"⟩ ⟨"/callback", [("error", ""), ("code", "abc")]⟩
          ⟨some "tok", some "ref", some 3600, some ["scope1"], []⟩).response.map
            HttpResponse.status = some 400 ∧
        (handleRequest ⟨some "cid", some "sec"⟩ ⟨"/callback", [("error", ""), ("code", "abc")]⟩
          ⟨some "tok", some "ref", some 3600, some ["scope1"], []⟩).tokenRequests = []) ∧
    (handleRequest ⟨some "cid", some "sec"⟩ ⟨"/callback", [("error", ""), ("code", "abc")]⟩
        ⟨some "tok", some "ref", some 3600, some ["scope1"], []⟩).exitAfterMs = some 1000 := by
  decide

/-- Claim C1 (amended): for every callback request to /callback whose error
query parameter carries a non-empty value, the handler responds 400 with an
HTML page naming the error, issues no token-exchange request, and does not
schedule process exit. -/
theorem C1_error_responds_400 (env : ServerEnv) (req : Request)
    (tokenResp : TokenResponse) (e : String)
    (hpath : req.pathname = "/callback")
    (herr : getParam req.query "error" = some e)
    (hne : e ≠ "") :
    (handleRequest env req tokenResp).response =
      some ⟨400, "text/html", "<h1>Authorization Failed</h1><p>Error: " ++ e ++ "</p>"⟩ ∧
    (handleRequest env req tokenResp).tokenRequests = [] ∧
    (handleRequest env req tokenResp).exitAfterMs = none := by
  have ht : jsTruthy (some e) = true := (jsTruthy_some_iff e).mpr hne
  simp [handleRequest, hpath, herr, ht, jsStr]

/-- Claim C1, witness: the amended theorem applied to the callback request
/callback?error=access_denied. -/
theorem C1_error_responds_400_witness :
    (Request.mk "/callback" [("error", "access_denied")]).pathname = "/callback" ∧
    getParam (Request.mk "/callback" [("error", "access_denied")]).query "error" =
      some "access_denied" ∧
    "access_denied" ≠ "" ∧
    ((handleRequest ⟨some "cid", some "sec"⟩ (Request.mk "/callback" [("error", "access_denied")])
        ⟨none, none, none, none, []⟩).response =
      some ⟨400, "text/html",
        "<h1>Authorization Failed</h1><p>Error: " ++ "access_denied" ++ "</p>"⟩ ∧
     (handleRequest ⟨some "cid", some "sec"⟩ (Request.mk "/callback" [("error", "access_denied")])
        ⟨none, none, none, none, []⟩).tokenRequests = [] ∧
     (handleRequest ⟨some "cid", some "sec"⟩ (Request.mk "/callback" [("error", "access_denied")])
        ⟨none, none, none, none, []⟩).exitAfterMs = none) :=
  ⟨rfl, by decide, by decide,
    C1_error_responds_400 ⟨some "cid", some "sec"⟩
      (Request.mk "/callback" [("error", "access_denied")])
      ⟨none, none, none, none, []⟩ "access_denied" rfl (by decide) (by decide)⟩

/-- Claim C2, counterexample: the callback request /callback?code=abc&error=denied
carries a code parameter and the token endpoint would answer with an access
token, yet the handler responds 400, issues no exchange request and does not
schedule exit, because the error branch takes precedence over the code
branch. -/
theorem C2_counterexample :
    (getParam [("code", "abc"), ("error", "denied")] "code").isSome = true ∧
    (some "tok" : Option String).isSome = true ∧
    ¬ ((handleRequest ⟨some "cid", some "sec"⟩
          ⟨"/callback", [("code", "abc"), ("error", "denied")]⟩
          ⟨some "tok", some "ref", some 3600, some ["scope1"], []⟩).response.map
            HttpResponse.status = some 200) ∧
    (handleRequest ⟨some "cid", some "sec"⟩
        ⟨"/callback", [("code", "abc"), ("error", "denied")]⟩
        ⟨some "tok", some "ref", some 3600, some ["scope1"], []⟩).tokenRequests = [] ∧
    (handleRequest ⟨some "cid", some "sec"⟩
        ⟨"/callback", [("code", "abc"), ("error", "denied")]⟩
        ⟨some "tok", some "ref", some 3600, some ["scope1"], []⟩).exitAfterMs = none := by
  decide

/-- Claim C2 (amended): for every callback request to /callback whose error
parameter is absent or empty and whose code parameter is non-empty, when the
token-exchange response carries a non-empty access token field the handler
responds 200 with the confirmation page, prints the access and refresh token
lines to the console, issues exactly the one exchange request, and schedules
process exit 1000 milliseconds later. -/
theorem C2_success_responds_200_and_exits (env : ServerEnv) (req : Request)
    (tokenResp : TokenResponse)
    (hpath : req.pathname = "/callback")
    (herr : jsTruthy (getParam req.query "error") = false)
    (hcode : jsTruthy (getParam req.query "code") = true)
    (htok : jsTruthy tokenResp.access_token = true) :
    (handleRequest env req tokenResp).response = some ⟨200, "text/html", successBody⟩ ∧
    ("TWITCH_ACCESS_TOKEN=" ++ jsStr tokenResp.access_token) ∈
      (handleRequest env req tokenResp).consoleLines ∧
    ("TWITCH_REFRESH_TOKEN=" ++ jsStr tokenResp.refresh_token) ∈
      (handleRequest env req tokenResp).consoleLines ∧
    (handleRequest env req tokenResp).tokenRequests =
      [exchangeTokenRequest env (jsStr (getParam req.query "code"))] ∧
    (handleRequest env req tokenResp).exitAfterMs = some 1000 := by
  simp [handleRequest, hpath, herr, hcode, htok, exchangeCodeForToken, successConsole]

/-- Claim C2, witness: the amended theorem applied to /callback?code=abc and
a response carrying both tokens. -/
theorem C2_success_responds_200_and_exits_witness :
    (Request.mk "/callback" [("code", "abc")]).pathname = "/callback" ∧
    jsTruthy (getParam (Request.mk "/callback" [("code", "abc")]).query "error") = false ∧
    jsTruthy (getParam (Request.mk "/callback" [("code", "abc")]).query "code") = true ∧
    jsTruthy (TokenResponse.mk (some "tok") (some "ref") (some 3600) (some ["scope1"]) []).access_token = true ∧
    ((handleRequest ⟨some "cid", some "sec"⟩ (Request.mk "/callback" [("code", "abc")])
        (TokenResponse.mk (some "tok") (some "ref") (some 3600) (some ["scope1"]) [])).response =
      some ⟨200, "text/html", successBody⟩ ∧
     ("TWITCH_ACCESS_TOKEN=" ++ jsStr (TokenResponse.mk (some "tok") (some "ref") (some 3600) (some ["scope1"]) []).access_token) ∈
      (handleRequest ⟨some "cid", some "sec"⟩ (Request.mk "/callback" [("code", "abc")])
        (TokenResponse.mk (some "tok") (some "ref") (some 3600) (some ["scope1"]) [])).consoleLines ∧
     ("TWITCH_REFRESH_TOKEN=" ++ jsStr (TokenResponse.mk (some "tok") (some "ref") (some 3600) (some ["scope1"]) []).refresh_token) ∈
      (handleRequest ⟨some "cid", some "sec"⟩ (Request.mk "/callback" [("code", "abc")])
        (TokenResponse.mk (some "tok") (some "ref") (some 3600) (some ["scope1"]) [])).consoleLines ∧
     (handleRequest ⟨some "cid", some "sec"⟩ (Request.mk "/callback" [("code", "abc")])
        (TokenResponse.mk (some "tok") (some "ref") (some 3600) (some ["scope1"]) [])).tokenRequests =
      [exchangeTokenRequest ⟨some "cid", some "sec"⟩
        (jsStr (getParam (Request.mk "/callback" [("code", "abc")]).query "code"))] ∧
     (handleRequest ⟨some "cid", some "sec"⟩ (Request.mk "/callback" [("code", "abc")])
        (TokenResponse.mk (some "tok") (some "ref") (some 3600) (some ["scope1"]) [])).exitAfterMs =
      some 1000) :=
  ⟨rfl, by decide, by decide, by decide,
    C2_success_responds_200_and_exits ⟨some "cid", some "sec"⟩
      (Request.mk "/callback" [("code", "abc")])
      (TokenResponse.mk (some "tok") (some "ref") (some 3600) (some ["scope1"]) [])
      rfl (by decide) (by decide) (by decide)⟩

/-- Claim C3, counterexample: the callback request /callback?code=abc&error=denied
carries a code parameter and the token endpoint would answer without an
access token field, yet the handler responds 400 rather than 500 and never
performs the exchange, because the error branch takes precedence. -/
theorem C3_counterexample :
    (getParam [("code", "abc"), ("error", "denied")] "code").isSome = true ∧
    (TokenResponse.mk none none none none [("status", "400")]).access_token = none ∧
    ¬ ((handleRequest ⟨some "cid", some "sec"⟩
          ⟨"/callback", [("code", "abc"), ("error", "denied")]⟩
          (TokenResponse.mk none none none none [("status", "400")])).response.map
            HttpResponse.status = some 500) ∧
    (handleRequest ⟨some "cid", some "sec"⟩
        ⟨"/callback", [("code", "abc"), ("error", "denied")]⟩
        (TokenResponse.mk none none none none [("status", "400")])).tokenRequests = [] := by
  decide

/-- Claim C3 (amended): for every callback request to /callback whose error
parameter is absent or empty and whose code parameter is non-empty, when the
token-exchange response carries no access token field (or an empty one) the
handler responds 500 with a page embedding the JSON rendering of the
provider's payload, issues exactly the one exchange request, and does not
schedule process exit. -/
theorem C3_exchange_failure_responds_500 (env : ServerEnv) (req : Request)
    (tokenResp : TokenResponse)
    (hpath : req.pathname = "/callback")
    (herr : jsTruthy (getParam req.query "error") = false)
    (hcode : jsTruthy (getParam req.query "code") = true)
    (htok : jsTruthy tokenResp.access_token = false) :
    (handleRequest env req tokenResp).response =
      some ⟨500, "text/html",
        "<h1>Token Exchange Failed</h1><pre>" ++ serializeTokens tokenResp ++ "</pre>"⟩ ∧
    (handleRequest env req tokenResp).tokenRequests =
      [exchangeTokenRequest env (jsStr (getParam req.query "code"))] ∧
    (handleRequest env req tokenResp).exitAfterMs = none := by
  simp [handleRequest, hpath, herr, hcode, htok, exchangeCodeForToken]

/-- Claim C3, witness: the amended theorem applied to /callback?code=used
and an error payload without access token. -/
theorem C3_exchange_failure_responds_500_witness :
    (Request.mk "/callback" [("code", "used")]).pathname = "/callback" ∧
    jsTruthy (getParam (Request.mk "/callback" [("code", "used")]).query "error") = false ∧
    jsTruthy (getParam (Request.mk "/callback" [("code", "used")]).query "code") = true ∧
    jsTruthy (TokenResponse.mk none none none none [("status", "400"), ("message", "Invalid authorization code")]).access_token = false ∧
    ((handleRequest ⟨some "cid", some "sec"⟩ (Request.mk "/callback" [("code", "used")])
        (TokenResponse.mk none none none none [("status", "400"), ("message", "Invalid authorization code")])).response =
      some ⟨500, "text/html",
        "<h1>Token Exchange Failed</h1><pre>" ++
          serializeTokens (TokenResponse.mk none none none none [("status", "400"), ("message", "Invalid authorization code")]) ++ "</pre>"⟩ ∧
     (handleRequest ⟨some "cid", some "sec"⟩ (Request.mk "/callback" [("code", "used")])
        (TokenResponse.mk none none none none [("status", "400"), ("message", "Invalid authorization code")])).tokenRequests =
      [exchangeTokenRequest ⟨some "cid", some "sec"⟩
        (jsStr (getParam (Request.mk "/callback" [("code", "used")]).query "code"))] ∧
     (handleRequest ⟨some "cid", some "sec"⟩ (Request.mk "/callback" [("code", "used")])
        (TokenResponse.mk none none none none [("status", "400"), ("message", "Invalid authorization code")])).exitAfterMs = none) :=
  ⟨rfl, by decide, by decide, by decide,
    C3_exchange_failure_responds_500 ⟨some "cid", some "sec"⟩
      (Request.mk "/callback" [("code", "used")])
      (TokenResponse.mk none none none none [("status", "400"), ("message", "Invalid authorization code")])
      rfl (by decide) (by decide) (by decide)⟩

/-- Claim C4, counterexample: a token-endpoint body whose access_token field
is present but holds the empty string.  The field is present, yet the
refresh client returns null instead of a token pair, because
if (data.access_token) tests truthiness, not presence. -/
theorem C4_counterexample :
    (TokenResponse.mk (some "") (some "ref") (some 3600) none []).access_token.isSome = true ∧
    (refreshToken ⟨some "cid", some "sec", none, some "rt"⟩
        (TokenResponse.mk (some "") (some "ref") (some 3600) none [])).result = none := by
  decide

/-- Claim C4 (amended): with a refresh token configured and a response that
carries a refresh_token field, the refresh client returns the parsed token
response exactly when the access_token field is present and non-empty, and
otherwise surfaces the rendered payload on the console; likewise the
callback handler treats an exchange as successful (responds 200) exactly
when the access_token field of the exchange response is non-empty, and
otherwise embeds the rendered payload in its 500 page. -/
theorem C4_token_clients_success_iff_nonempty_token (env : AuthEnv)
    (resp : TokenResponse) (senv : ServerEnv) (req : Request) (xresp : TokenResponse)
    (hrt : jsTruthy env.refreshToken = true)
    (hrtok : resp.refresh_token ≠ none)
    (hpath : req.pathname = "/callback")
    (herr : jsTruthy (getParam req.query "error") = false)
    (hcode : jsTruthy (getParam req.query "code") = true) :
    ((refreshToken env resp).result = some resp ↔ jsTruthy resp.access_token = true) ∧
    (jsTruthy resp.access_token = false →
      ("Refresh failed: " ++ serializeTokens resp) ∈ (refreshToken env resp).consoleLines) ∧
    ((handleRequest senv req xresp).response.map HttpResponse.status = some 200 ↔
      jsTruthy xresp.access_token = true) ∧
    (jsTruthy xresp.access_token = false →
      (handleRequest senv req xresp).response.map HttpResponse.respBody =
        some ("<h1>Token Exchange Failed</h1><pre>" ++ serializeTokens xresp ++ "</pre>")) := by
  obtain ⟨rtok, hr⟩ := Option.ne_none_iff_exists'.mp hrtok
  refine ⟨?_, ?_, ?_, ?_⟩
  · cases hta : jsTruthy resp.access_token with
    | true => simp [refreshToken, hrt, hta, hr]
    | false => simp [refreshToken, hrt, hta]
  · intro hta
    simp [refreshToken, hrt, hta]
  · cases htx : jsTruthy xresp.access_token with
    | true => simp [handleRequest, hpath, herr, hcode, htx, exchangeCodeForToken]
    | false => simp [handleRequest, hpath, herr, hcode, htx, exchangeCodeForToken]
  · intro htx
    simp [handleRequest, hpath, herr, hcode, htx, exchangeCodeForToken]

/-- Claim C4, witness: the amended theorem applied to a failing refresh
payload and a failing exchange payload. -/
theorem C4_token_clients_success_iff_nonempty_token_witness :
    jsTruthy (AuthEnv.mk (some "cid") (some "sec") none (some "rt")).refreshToken = true ∧
    (TokenResponse.mk none (some "ref") none none [("message", "bad")]).refresh_token ≠ none ∧
    (Request.mk "/callback" [("code", "abc")]).pathname = "/callback" ∧
    jsTruthy (getParam (Request.mk "/callback" [("code", "abc")]).query "error") = false ∧
    jsTruthy (getParam (Request.mk "/callback" [("code", "abc")]).query "code") = true ∧
    (((refreshToken (AuthEnv.mk (some "cid") (some "sec") none (some "rt"))
          (TokenResponse.mk none (some "ref") none none [("message", "bad")])).result =
        some (TokenResponse.mk none (some "ref") none none [("message", "bad")]) ↔
      jsTruthy (TokenResponse.mk none (some "ref") none none [("message", "bad")]).access_token = true) ∧
     (jsTruthy (TokenResponse.mk none (some "ref") none none [("message", "bad")]).access_token = false →
      ("Refresh failed: " ++ serializeTokens (TokenResponse.mk none (some "ref") none none [("message", "bad")])) ∈
        (refreshToken (AuthEnv.mk (some "cid") (some "sec") none (some "rt"))
          (TokenResponse.mk none (some "ref") none none [("message", "bad")])).consoleLines) ∧
     ((handleRequest ⟨some "cid", some "sec"⟩ (Request.mk "/callback" [("code", "abc")])
          (TokenResponse.mk none none none none [])).response.map HttpResponse.status = some 200 ↔
      jsTruthy (TokenResponse.mk none none none none []).access_token = true) ∧
     (jsTruthy (TokenResponse.mk none none none none []).access_token = false →
      (handleRequest ⟨some "cid", some "sec"⟩ (Request.mk "/callback" [("code", "abc")])
          (TokenResponse.mk none none none none [])).response.map HttpResponse.respBody =
        some ("<h1>Token Exchange Failed</h1><pre>" ++
          serializeTokens (TokenResponse.mk none none none none []) ++ "</pre>"))) :=
  ⟨by decide, by decide, rfl, by decide, by decide,
    C4_token_clients_success_iff_nonempty_token
      (AuthEnv.mk (some "cid") (some "sec") none (some "rt"))
      (TokenResponse.mk none (some "ref") none none [("message", "bad")])
      ⟨some "cid", some "sec"⟩ (Request.mk "/callback" [("code", "abc")])
      (TokenResponse.mk none none none none [])
      (by decide) (by decide) rfl (by decide) (by decide)⟩

/-- Claim C5: with no refresh token configured in the environment the
refresh operation returns null, reports the missing value as its first
console line, and issues no network request at all. -/
theorem C5_refresh_missing_token_no_network (env : AuthEnv) (resp : TokenResponse)
    (h : env.refreshToken = none) :
    (refreshToken env resp).result = none ∧
    (refreshToken env resp).networkCalls = [] ∧
    (refreshToken env resp).consoleLines.head? =
      some "No TWITCH_REFRESH_TOKEN found in ~/twitch-secrets/.env" := by
  simp [refreshToken, h, jsTruthy]

/-- Claim C5, witness: the theorem applied to an environment without a
refresh token. -/
theorem C5_refresh_missing_token_no_network_witness :
    (AuthEnv.mk (some "cid") (some "sec") (some "tok") none).refreshToken = none ∧
    ((refreshToken (AuthEnv.mk (some "cid") (some "sec") (some "tok") none)
        (TokenResponse.mk (some "new") (some "ref") (some 3600) none [])).result = none ∧
     (refreshToken (AuthEnv.mk (some "cid") (some "sec") (some "tok") none)
        (TokenResponse.mk (some "new") (some "ref") (some 3600) none [])).networkCalls = [] ∧
     (refreshToken (AuthEnv.mk (some "cid") (some "sec") (some "tok") none)
        (TokenResponse.mk (some "new") (some "ref") (some 3600) none [])).consoleLines.head? =
      some "No TWITCH_REFRESH_TOKEN found in ~/twitch-secrets/.env") :=
  ⟨rfl, C5_refresh_missing_token_no_network
    (AuthEnv.mk (some "cid") (some "sec") (some "tok") none)
    (TokenResponse.mk (some "new") (some "ref") (some 3600) none []) rfl⟩

/-- Claim C6: with an access token configured, the validator returns the
token metadata (login, user id, scopes, remaining lifetime) exactly when the
validation response status is 2xx; on any other status it returns null with
console lines that are a fixed list, reading nothing further from the
response.  The model is a total function, so no exception is thrown. -/
theorem C6_validate_metadata_iff_2xx (env : AuthEnv) (resp : ValidateResponse)
    (htok : jsTruthy env.accessToken = true) :
    ((validateToken env resp).result =
        some ⟨resp.login, resp.user_id, resp.scopes, resp.expires_in⟩ ↔
      (200 ≤ resp.status ∧ resp.status ≤ 299)) ∧
    (¬ (200 ≤ resp.status ∧ resp.status ≤ 299) →
      (validateToken env resp).result = none ∧
      (validateToken env resp).consoleLines =
        ["Validating access token...\n", "Token is INVALID or EXPIRED",
         "Run: node auth.js refresh"]) := by
  by_cases hok : 200 ≤ resp.status ∧ resp.status ≤ 299 <;>
    simp [validateToken, htok, hok]

/-- Claim C6, witness: the theorem applied to a 401 validation response. -/
theorem C6_validate_metadata_iff_2xx_witness :
    jsTruthy (AuthEnv.mk (some "cid") (some "sec") (some "tok") none).accessToken = true ∧
    (((validateToken (AuthEnv.mk (some "cid") (some "sec") (some "tok") none)
          (ValidateResponse.mk 401 "" "" [] 0)).result =
        some ⟨(ValidateResponse.mk 401 "" "" [] 0).login,
          (ValidateResponse.mk 401 "" "" [] 0).user_id,
          (ValidateResponse.mk 401 "" "" [] 0).scopes,
          (ValidateResponse.mk 401 "" "" [] 0).expires_in⟩ ↔
      (200 ≤ (ValidateResponse.mk 401 "" "" [] 0).status ∧
        (ValidateResponse.mk 401 "" "" [] 0).status ≤ 299)) ∧
     (¬ (200 ≤ (ValidateResponse.mk 401 "" "" [] 0).status ∧
          (ValidateResponse.mk 401 "" "" [] 0).status ≤ 299) →
      (validateToken (AuthEnv.mk (some "cid") (some "sec") (some "tok") none)
          (ValidateResponse.mk 401 "" "" [] 0)).result = none ∧
      (validateToken (AuthEnv.mk (some "cid") (some "sec") (some "tok") none)
          (ValidateResponse.mk 401 "" "" [] 0)).consoleLines =
        ["Validating access token...\n", "Token is INVALID or EXPIRED",
         "Run: node auth.js refresh"])) :=
  ⟨by decide, C6_validate_metadata_iff_2xx
    (AuthEnv.mk (some "cid") (some "sec") (some "tok") none)
    (ValidateResponse.mk 401 "" "" [] 0) (by decide)⟩

/-- Claim C7: every Helix probe call issues exactly one HTTP request, prints
the three rate-limit headers to the console, and returns the response status
with the parsed body unconditionally — in particular a 429 flows back as an
ordinary result and no request is ever reissued. -/
theorem C7_apiCall_single_request_surfaces_headers (env : ApiEnv)
    (endpoint : String) (resp : ApiResponse) :
    (apiCall env endpoint resp).networkCalls = [apiRequest env endpoint] ∧
    (apiCall env endpoint resp).result = ⟨resp.status, resp.parsedBody⟩ ∧
    ("  Limit: " ++ hdrShow resp.rlLimit) ∈ (apiCall env endpoint resp).consoleLines ∧
    ("  Remaining: " ++ hdrShow resp.rlRemaining) ∈ (apiCall env endpoint resp).consoleLines ∧
    ("  Reset: " ++ hdrShow resp.rlReset) ∈ (apiCall env endpoint resp).consoleLines := by
  simp [apiCall]

/-- Claim C8: for every client identifier, redirect URI and scope list, the
authorization URL builder yields the authorize endpoint with query
parameters exactly client_id, redirect_uri, response_type=code and scope set
to the scope list joined with single spaces; the SCOPES constant is itself
that join of the requested scope list.  The builder is a total function with
no error case. -/
theorem C8_authorize_url_params (clientId redirectUri : String)
    (scopes : List String) :
    (buildAuthorizeUrl clientId redirectUri (String.intercalate " " scopes)).base =
      "https://id.twitch.tv/oauth2/authorize" ∧
    (buildAuthorizeUrl clientId redirectUri (String.intercalate " " scopes)).params =
      [("client_id", clientId), ("redirect_uri", redirectUri),
       ("response_type", "code"), ("scope", String.intercalate " " scopes)] ∧
    SCOPES = String.intercalate " " SCOPES_LIST := by
  refine ⟨rfl, ?_, rfl⟩
  simp [buildAuthorizeUrl, setParam]

/-- Claim C9: every request whose path is not /callback gets the static
placeholder response, with no token request, no console output and no
scheduled process exit. -/
theorem C9_other_paths_placeholder (env : ServerEnv) (req : Request)
    (tokenResp : TokenResponse)
    (h : req.pathname ≠ "/callback") :
    handleRequest env req tokenResp =
      { response := some ⟨200, "text/plain",
          "Twitch OAuth Callback Server\nWaiting for authorization..."⟩,
        tokenRequests := [],
        consoleLines := [],
        exitAfterMs := none } := by
  simp [handleRequest, h]

/-- Claim C9, witness: the theorem applied to a request for the root path. -/
theorem C9_other_paths_placeholder_witness :
    (Request.mk "/" []).pathname ≠ "/callback" ∧
    handleRequest ⟨some "cid", some "sec"⟩ (Request.mk "/" [])
        (TokenResponse.mk none none none none []) =
      { response := some ⟨200, "text/plain",
          "Twitch OAuth Callback Server\nWaiting for authorization..."⟩,
        tokenRequests := [],
        consoleLines := [],
        exitAfterMs := none } :=
  ⟨by decide, C9_other_paths_placeholder ⟨some "cid", some "sec"⟩ (Request.mk "/" [])
    (TokenResponse.mk none none none none []) (by decide)⟩

/-- Claim C10: a request to /callback whose query string has neither a code
nor an error parameter makes the handler write no response at all on that
connection — while issuing no token request, printing nothing, and leaving
the listener running. -/
theorem C10_no_code_no_error_writes_nothing (env : ServerEnv) (req : Request)
    (tokenResp : TokenResponse)
    (hpath : req.pathname = "/callback")
    (hcode : getParam req.query "code" = none)
    (herr : getParam req.query "error" = none) :
    (handleRequest env req tokenResp).response = none ∧
    (handleRequest env req tokenResp).tokenRequests = [] ∧
    (handleRequest env req tokenResp).consoleLines = [] ∧
    (handleRequest env req tokenResp).exitAfterMs = none := by
  simp [handleRequest, hpath, hcode, herr, jsTruthy]

/-- Claim C10, witness: the theorem applied to /callback?scope=x, which
carries neither code nor error. -/
theorem C10_no_code_no_error_writes_nothing_witness :
    (Request.mk "/callback" [("scope", "x")]).pathname = "/callback" ∧
    getParam (Request.mk "/callback" [("scope", "x")]).query "code" = none ∧
    getParam (Request.mk "/callback" [("scope", "x")]).query "error" = none ∧
    ((handleRequest ⟨some "cid", some "sec"⟩ (Request.mk "/callback" [("scope", "x")])
        (TokenResponse.mk none none none none [])).response = none ∧
     (handleRequest ⟨some "cid", some "sec"⟩ (Request.mk "/callback" [("scope", "x")])
        (TokenResponse.mk none none none none [])).tokenRequests = [] ∧
     (handleRequest ⟨some "cid", some "sec"⟩ (Request.mk "/callback" [("scope", "x")])
        (TokenResponse.mk none none none none [])).consoleLines = [] ∧
     (handleRequest ⟨some "cid", some "sec"⟩ (Request.mk "/callback" [("scope", "x")])
        (TokenResponse.mk none none none none [])).exitAfterMs = none) :=
  ⟨rfl, by decide, by decide,
    C10_no_code_no_error_writes_nothing ⟨some "cid", some "sec"⟩
      (Request.mk "/callback" [("scope", "x")])
      (TokenResponse.mk none none none none []) rfl (by decide) (by decide)⟩

end TwitchClient
